import Mathlib

/-!
Verification development for the IPDR network-flow pipeline
(`src/backend/flows/models.py`, `src/backend/flow_processor/tasks.py`).

Timestamps are modelled as integer seconds since the epoch (UTC); Django's
`TruncMinute` / `TruncHour` / `TruncDay` become truncation on integers, and
`timedelta` values become their lengths in seconds.  Python floats are
modelled as rationals.  Database tables become Lean lists; each Celery task
becomes a pure function from the relevant state (plus an explicit `now`,
since `timezone.now()` is ambient in the source) to the new state.
-/

namespace IPDR

/-- Embeds the stored columns of `NetworkFlow` (`flows/models.py`).
`flow_data` (a JSON blob) is modelled as an association list; `created_at`
and `updated_at` are bookkeeping columns no task reads, and are elided. -/
structure NetworkFlow where
  flow_id : String
  timestamp : Int
  first_seen : Int
  last_seen : Int
  src_ip : String
  dst_ip : String
  src_port : Int
  dst_port : Int
  protocol : Int
  protocol_name : String
  packets : Int
  bytes : Int
  duration : ℚ
  input_interface : Option Int
  output_interface : Option Int
  tos : Int
  tcp_flags : Int
  src_country : String
  src_city : String
  dst_country : String
  dst_city : String
  src_asn : Option Int
  dst_asn : Option Int
  flow_data : List (String × String)
  processed : Bool
deriving Repr, DecidableEq

/-- `NetworkFlow.bandwidth_mbps` (`flows/models.py` lines 108-113):
`(bytes * 8) / (duration * 1000000)` when `duration > 0`, else `0`. -/
def bandwidth_mbps (f : NetworkFlow) : ℚ :=
  if f.duration > 0 then ((f.bytes : ℚ) * 8) / (f.duration * 1000000) else 0

/-- `NetworkFlow.packets_per_second` (`flows/models.py` lines 115-120):
`packets / duration` when `duration > 0`, else `0`. -/
def packets_per_second (f : NetworkFlow) : ℚ :=
  if f.duration > 0 then (f.packets : ℚ) / f.duration else 0

/-- `NetworkFlow._get_protocol_name` (`flows/models.py` lines 95-106). -/
def get_protocol_name (p : Int) : String :=
  if p = 1 then "ICMP"
  else if p = 6 then "TCP"
  else if p = 17 then "UDP"
  else if p = 47 then "GRE"
  else if p = 50 then "ESP"
  else if p = 51 then "AH"
  else if p = 89 then "OSPF"
  else "PROTO_" ++ toString p

/-- `NetworkFlow._generate_flow_id` (`flows/models.py` lines 89-93) hashes the
serialized 6-tuple with sha256; the hash is modelled as the serialization
itself, which keeps the id a deterministic function of the same tuple. -/
def generate_flow_id (f : NetworkFlow) : String :=
  f.src_ip ++ ":" ++ toString f.src_port ++ ":" ++ f.dst_ip ++ ":" ++
    toString f.dst_port ++ ":" ++ toString f.protocol ++ ":" ++ toString f.first_seen

/-- `NetworkFlow.save` (`flows/models.py` lines 78-87): backfills `flow_id`
and `protocol_name` when they are empty, then persists.  Both guards read
fields the other does not write, so the parallel update is faithful. -/
def model_save (f : NetworkFlow) : NetworkFlow :=
  { f with
    flow_id := if f.flow_id = "" then generate_flow_id f else f.flow_id,
    protocol_name := if f.protocol_name = "" then get_protocol_name f.protocol else f.protocol_name }

/-- Embeds the stored columns of `FlowStatistics` (`flows/models.py`). -/
structure FlowStatistics where
  period : String
  timestamp : Int
  total_flows : Nat
  total_packets : Int
  total_bytes : Int
  top_src_ips : List (String × Nat × Int × Int)
  top_dst_ips : List (String × Nat × Int × Int)
  protocol_distribution : List (String × Nat)
  top_ports : List (Int × Nat × Int × Int)
  country_distribution : List (String × Nat)
  asn_distribution : List (Int × Nat)
  avg_flow_duration : ℚ
  max_bandwidth : ℚ
  avg_bandwidth : ℚ
deriving Repr, DecidableEq

/-- Embeds the stored columns of `FlowAlert` (`flows/models.py`).  The
nullable `flow` foreign key is modelled by the referenced `flow_id`. -/
structure FlowAlert where
  alert_type : String
  severity : String
  title : String
  description : String
  flow : Option String
  flow_data : List (String × String)
  timestamp : Int
  acknowledged : Bool
  acknowledged_by : Option String
  acknowledged_at : Option Int
  threshold_value : Option ℚ
  current_value : Option ℚ
deriving Repr, DecidableEq

/-- Django `Avg(...)` combined with the source's `or 0` fallback: `None`
(no rows) becomes `0`; a present average is returned unchanged (an average
that is literally `0` is also `0` after `or 0`). -/
def avgQ (xs : List ℚ) : ℚ :=
  if xs.length = 0 then 0 else xs.sum / (xs.length : ℚ)

/-- `flows.aggregate(Max('bandwidth_mbps'))` (`tasks.py` lines 187 and
355).  `bandwidth_mbps` is a Python `@property` on the model
(`flows/models.py` lines 108-113), not a database column, and the Django
ORM resolves aggregate arguments against columns only, so this call
raises `FieldError` before touching any row — on every invocation,
whatever the queryset holds. -/
def aggregate_max_bandwidth (_flows : List NetworkFlow) : Except String ℚ :=
  Except.error "FieldError: Cannot resolve keyword bandwidth_mbps into field"

/-- `flows.aggregate(Avg('bandwidth_mbps'))` (`tasks.py` lines 188 and
354): raises the same `FieldError` as `aggregate_max_bandwidth`, for the
same reason. -/
def aggregate_avg_bandwidth (_flows : List NetworkFlow) : Except String ℚ :=
  Except.error "FieldError: Cannot resolve keyword bandwidth_mbps into field"

/-- Group rows by a key and total `count`, `packets`, `bytes` per key, as
the `values(...).annotate(...)` calls in `calculate_flow_statistics` do. -/
def groupTotals {κ : Type} [DecidableEq κ] (flows : List NetworkFlow)
    (key : NetworkFlow → κ) : List (κ × Nat × Int × Int) :=
  ((flows.map key).dedup).map (fun k =>
    let g := flows.filter (fun f => decide (key f = k))
    (k, g.length, (g.map (fun f => f.packets)).sum, (g.map (fun f => f.bytes)).sum))

/-- `order_by(-bytes)[:10]`: stable sort by total bytes descending, first 10. -/
def topByBytes {κ : Type} (entries : List (κ × Nat × Int × Int)) :
    List (κ × Nat × Int × Int) :=
  (entries.insertionSort (fun a b => b.2.2.2 ≤ a.2.2.2)).take 10

/-- Group rows by a key and count them, as the distribution dicts do. -/
def groupCounts {κ : Type} [DecidableEq κ] (flows : List NetworkFlow)
    (key : NetworkFlow → κ) : List (κ × Nat) :=
  ((flows.map key).dedup).map (fun k =>
    (k, (flows.filter (fun f => decide (key f = k))).length))

/-- `calculate_flow_statistics` (`tasks.py` lines 180-247).  Lines 183-186
aggregate real columns and succeed; line 187 is the first aggregate over
`bandwidth_mbps` and raises `FieldError`, so the function never returns a
snapshot.  The success branch that would build the snapshot from the
remaining lines (189-247) is kept as the source writes it, behind the
failing aggregates. -/
def calculate_flow_statistics (flows : List NetworkFlow) (period : String)
    (timestamp : Int) : Except String FlowStatistics :=
  let total_flows := flows.length
  let total_packets := (flows.map (fun f => f.packets)).sum
  let total_bytes := (flows.map (fun f => f.bytes)).sum
  let avg_flow_duration := avgQ (flows.map (fun f => f.duration))
  match aggregate_max_bandwidth flows, aggregate_avg_bandwidth flows with
  | Except.error e, _ => Except.error e
  | _, Except.error e => Except.error e
  | Except.ok max_bandwidth, Except.ok avg_bandwidth =>
    Except.ok
      { period := period
        timestamp := timestamp
        total_flows := total_flows
        total_packets := total_packets
        total_bytes := total_bytes
        top_src_ips := topByBytes (groupTotals flows (fun f => f.src_ip))
        top_dst_ips := topByBytes (groupTotals flows (fun f => f.dst_ip))
        protocol_distribution := groupCounts flows (fun f => f.protocol_name)
        top_ports := topByBytes (groupTotals flows (fun f => f.dst_port))
        country_distribution :=
          groupCounts (flows.filter (fun f => decide (f.src_country ≠ "")))
            (fun f => f.src_country)
        asn_distribution :=
          ((flows.filter (fun f => decide (f.src_asn ≠ none))).filterMap
            (fun f => f.src_asn)).dedup.map
            (fun a => (a, ((flows.filter (fun f => decide (f.src_asn = some a)))).length))
        avg_flow_duration := avg_flow_duration
        max_bandwidth := max_bandwidth
        avg_bandwidth := avg_bandwidth }

/-- The truncation functions used in the `periods` table of
`aggregate_flow_statistics` (`tasks.py` lines 72-78): Django `TruncMinute`,
`TruncHour`, `TruncDay` on epoch-second timestamps. -/
inductive TruncFn
  | minute
  | hour
  | day
deriving Repr, DecidableEq

def TruncFn.apply : TruncFn → Int → Int
  | TruncFn.minute, t => t - t % 60
  | TruncFn.hour, t => t - t % 3600
  | TruncFn.day, t => t - t % 86400

/-- The `periods` table of `aggregate_flow_statistics` (`tasks.py` lines
72-78): name, truncation function, window length in seconds. -/
def periods : List (String × TruncFn × Int) :=
  [("1m", TruncFn.minute, 60),
   ("5m", TruncFn.minute, 300),
   ("15m", TruncFn.minute, 900),
   ("1h", TruncFn.hour, 3600),
   ("1d", TruncFn.day, 86400)]

/-- `FlowStatistics.objects.filter(period=..., timestamp=...).exists()`
(`tasks.py` line 86). -/
def hasSnapshot (stats : List FlowStatistics) (p : String) (t : Int) : Bool :=
  stats.any (fun s => s.period == p && s.timestamp == t)

/-- `NetworkFlow.objects.filter(timestamp__gte=lo, timestamp__lt=hi)`
(`tasks.py` lines 90-93). -/
def flowsInWindow (flows : List NetworkFlow) (lo hi : Int) : List NetworkFlow :=
  flows.filter (fun f => decide (lo ≤ f.timestamp) && decide (f.timestamp < hi))

/-- One iteration of the period loop in `aggregate_flow_statistics`
(`tasks.py` lines 80-104): skip when the bucket's snapshot exists, skip
when the window holds no flows, otherwise call
`calculate_flow_statistics` and persist its result — but that call raises
`FieldError`, which propagates out of the loop body. -/
def aggregatePeriod (now : Int) (flows : List NetworkFlow)
    (stats : List FlowStatistics) (p : String × TruncFn × Int) :
    Except String (List FlowStatistics) :=
  let bucket_start := p.2.1.apply now
  if hasSnapshot stats p.1 bucket_start then Except.ok stats
  else
    let ws := flowsInWindow flows (bucket_start - p.2.2) bucket_start
    if ws.isEmpty then Except.ok stats
    else
      match calculate_flow_statistics ws p.1 bucket_start with
      | Except.error e => Except.error e
      | Except.ok s => Except.ok (stats ++ [s])

/-- The database state the aggregator touches. -/
structure AggState where
  flows : List NetworkFlow
  stats : List FlowStatistics
deriving Repr, DecidableEq

/-- The period loop of `aggregate_flow_statistics`: an exception raised in
one iteration skips the remaining periods; rows committed by earlier
iterations remain.  Returns the resulting table and the propagated
exception, if any. -/
def aggregateLoop (now : Int) (flows : List NetworkFlow) :
    List (String × TruncFn × Int) → List FlowStatistics →
      List FlowStatistics × Option String
  | [], stats => (stats, none)
  | p :: ps, stats =>
    match aggregatePeriod now flows stats p with
    | Except.error e => (stats, some e)
    | Except.ok stats2 => aggregateLoop now flows ps stats2

/-- `aggregate_flow_statistics` (`tasks.py` lines 65-113) at a fixed `now`
(the source re-reads `timezone.now()` each iteration; the claims under
study fix a single `now`, which makes every iteration see the same
value).  The task's `try/except` (lines 111-113) logs and **re-raises**,
so the first period whose window holds flows aborts the whole run with
the `FieldError` from the bandwidth aggregate and no snapshot for it or
any later period is created.  Returns the resulting state and the error
surfaced to the scheduler, if any. -/
def aggregate_flow_statistics (now : Int) (st : AggState) : AggState × Option String :=
  let r := aggregateLoop now st.flows periods st.stats
  ({ st with stats := r.1 }, r.2)

/-- The whole database state the retention sweeper touches. -/
structure Db where
  flows : List NetworkFlow
  stats : List FlowStatistics
  alerts : List FlowAlert
deriving Repr, DecidableEq

/-- `cleanup_old_flows` (`tasks.py` lines 116-152).  `retention_days` is
`NETWORK_FLOW_SETTINGS['FLOW_RETENTION_DAYS']` with default 30.  Deleting a
`NetworkFlow` row also deletes every `FlowAlert` whose `flow` foreign key
references it, because `FlowAlert.flow` is declared with
`on_delete=models.CASCADE` (`flows/models.py` line 204) and Django emulates
that cascade on queryset deletes.  After the flow and statistics deletions,
alerts older than 90 days are deleted. -/
def cleanup_old_flows (now : Int) (retention_days : Int) (db : Db) : Db :=
  let cutoff_date := now - retention_days * 86400
  let deleted_flow_ids :=
    (db.flows.filter (fun f => decide (f.timestamp < cutoff_date))).map (fun f => f.flow_id)
  let flows1 := db.flows.filter (fun f => decide (¬ f.timestamp < cutoff_date))
  let alerts1 := db.alerts.filter (fun a =>
    match a.flow with
    | none => true
    | some fid => decide (fid ∉ deleted_flow_ids))
  let stats1 := db.stats.filter (fun s => decide (¬ s.timestamp < cutoff_date))
  let alert_cutoff := now - 90 * 86400
  let alerts2 := alerts1.filter (fun a => decide (¬ a.timestamp < alert_cutoff))
  { flows := flows1, stats := stats1, alerts := alerts2 }

/-- The flow selection of `check_bandwidth_spikes` (`tasks.py` lines
349-351): `filter(timestamp__gte=timezone.now() - timedelta(minutes=5))` —
a lower bound only, with no `timestamp__lt` upper bound. -/
def bandwidth_recent (now : Int) (flows : List NetworkFlow) : List NetworkFlow :=
  flows.filter (fun f => decide (now - 300 ≤ f.timestamp))

/-- The flow selection of `check_unusual_protocols` (`tasks.py` lines
376-378): same lower-bound-only filter. -/
def unusual_recent (now : Int) (flows : List NetworkFlow) : List NetworkFlow :=
  flows.filter (fun f => decide (now - 300 ≤ f.timestamp))

/-- The flow selection of `check_port_scans` (`tasks.py` lines 404-406):
same lower-bound-only filter. -/
def portscan_recent (now : Int) (flows : List NetworkFlow) : List NetworkFlow :=
  flows.filter (fun f => decide (now - 300 ≤ f.timestamp))

/-- The flow selection of `check_ddos_patterns` (`tasks.py` lines 431-433):
same lower-bound-only filter. -/
def ddos_recent (now : Int) (flows : List NetworkFlow) : List NetworkFlow :=
  flows.filter (fun f => decide (now - 300 ≤ f.timestamp))

/-- The `FlowAlert.objects.create(...)` call of `check_bandwidth_spikes`
(`tasks.py` lines 359-366).  Alert `timestamp` is `auto_now_add`, i.e.
`now`; the `:.2f` number formatting inside title/description strings is
modelled by `toString` of the exact rational. -/
def spike_alert (now : Int) (avg_bandwidth max_bandwidth : ℚ) : FlowAlert :=
  { alert_type := "bandwidth_spike"
    severity := "medium"
    title := "Bandwidth spike detected: " ++ toString max_bandwidth ++ " Mbps"
    description := "Maximum bandwidth " ++ toString max_bandwidth ++
      " Mbps is significantly higher than average " ++ toString avg_bandwidth ++ " Mbps"
    flow := none
    flow_data := []
    timestamp := now
    acknowledged := false
    acknowledged_by := none
    acknowledged_at := none
    threshold_value := some (avg_bandwidth * 5)
    current_value := some max_bandwidth }

/-- The body of `check_bandwidth_spikes` (`tasks.py` lines 348-366),
before the function's own `try/except`.  An empty window skips the
`exists()` guard and completes with no alerts; a non-empty window reaches
the `Avg('bandwidth_mbps')` aggregate on line 354, which raises
`FieldError`, so the alert-creation branch (lines 358-366) is
unreachable. -/
def bandwidth_body (now : Int) (flows : List NetworkFlow) :
    Except String (List FlowAlert) :=
  let recent := bandwidth_recent now flows
  if recent.isEmpty then Except.ok []
  else
    match aggregate_avg_bandwidth recent, aggregate_max_bandwidth recent with
    | Except.error e, _ => Except.error e
    | _, Except.error e => Except.error e
    | Except.ok avg_bandwidth, Except.ok max_bandwidth =>
      if max_bandwidth > avg_bandwidth * 5 ∧ max_bandwidth > 100 then
        Except.ok [spike_alert now avg_bandwidth max_bandwidth]
      else Except.ok []

/-- `check_bandwidth_spikes` (`tasks.py` lines 345-369): the whole body is
wrapped in a `try/except` that only logs (lines 368-369), so the
`FieldError` is swallowed and the heuristic returns having created no
alerts.  Returns the created alerts and the logged error, if any. -/
def check_bandwidth_spikes (now : Int) (flows : List NetworkFlow) :
    List FlowAlert × Option String :=
  match bandwidth_body now flows with
  | Except.ok alerts => (alerts, none)
  | Except.error e => ([], some e)

/-- `check_unusual_protocols` (`tasks.py` lines 372-397): one alert per
flow in the window whose protocol is not in {1, 6, 17}. -/
def check_unusual_protocols (now : Int) (flows : List NetworkFlow) : List FlowAlert :=
  let recent := unusual_recent now flows
  let unusual := recent.filter (fun f => decide (f.protocol ∉ [(1 : Int), 6, 17]))
  unusual.map (fun f =>
    { alert_type := "unusual_protocol"
      severity := "low"
      title := "Unusual protocol detected: " ++ f.protocol_name
      description := "Protocol " ++ f.protocol_name ++ " (ID: " ++ toString f.protocol ++
        ") detected from " ++ f.src_ip ++ " to " ++ f.dst_ip
      flow := some f.flow_id
      flow_data := []
      timestamp := now
      acknowledged := false
      acknowledged_by := none
      acknowledged_at := none
      threshold_value := none
      current_value := some (f.protocol : ℚ) })

/-- `Count(dst_port, distinct=True)` for one `src_ip` group (`tasks.py`
lines 409-411). -/
def distinct_ports (recent : List NetworkFlow) (src : String) : Nat :=
  (((recent.filter (fun f => decide (f.src_ip = src))).map (fun f => f.dst_port)).dedup).length

/-- `check_port_scans` (`tasks.py` lines 400-424): group the window by
`src_ip`, alert per source with at least 10 distinct destination ports. -/
def check_port_scans (now : Int) (flows : List NetworkFlow) : List FlowAlert :=
  let recent := portscan_recent now flows
  let sources := ((recent.map (fun f => f.src_ip)).dedup).filter
    (fun s => decide (10 ≤ distinct_ports recent s))
  sources.map (fun s =>
    { alert_type := "port_scan"
      severity := "medium"
      title := "Potential port scan from " ++ s
      description := "Source " ++ s ++ " connected to " ++
        toString (distinct_ports recent s) ++ " different ports"
      flow := none
      flow_data := []
      timestamp := now
      acknowledged := false
      acknowledged_by := none
      acknowledged_at := none
      threshold_value := some 10
      current_value := some (distinct_ports recent s : ℚ) })

/-- `Count(src_ip, distinct=True)` for one `dst_ip` group (`tasks.py`
lines 436-438). -/
def distinct_sources (recent : List NetworkFlow) (dst : String) : Nat :=
  (((recent.filter (fun f => decide (f.dst_ip = dst))).map (fun f => f.src_ip)).dedup).length

/-- The title string of a `ddos_attack` alert (`tasks.py` line 444). -/
def ddos_title (dst : String) : String :=
  "Potential DDoS attack on " ++ dst

/-- The `FlowAlert.objects.create(...)` call of `check_ddos_patterns`
(`tasks.py` lines 441-448) for one destination. -/
def ddos_alert (now : Int) (recent : List NetworkFlow) (d : String) : FlowAlert :=
  { alert_type := "ddos_attack"
    severity := "high"
    title := ddos_title d
    description := "Destination " ++ d ++ " received traffic from " ++
      toString (distinct_sources recent d) ++ " different sources"
    flow := none
    flow_data := []
    timestamp := now
    acknowledged := false
    acknowledged_by := none
    acknowledged_at := none
    threshold_value := some 50
    current_value := some (distinct_sources recent d : ℚ) }

/-- `check_ddos_patterns` (`tasks.py` lines 427-451): group the window by
`dst_ip`, alert per destination with at least 50 distinct sources. -/
def check_ddos_patterns (now : Int) (flows : List NetworkFlow) : List FlowAlert :=
  let recent := ddos_recent now flows
  let targets := ((recent.map (fun f => f.dst_ip)).dedup).filter
    (fun d => decide (50 ≤ distinct_sources recent d))
  targets.map (ddos_alert now recent)

/-- A heuristic body either returns the alerts it created or raises; each
of the four `check_*` functions wraps its whole body in `try/except` that
only logs (`tasks.py` lines 368-369, 396-397, 423-424, 450-451), so a
raising body yields no alerts and no propagated error. -/
def run_checked (r : Except String (List FlowAlert)) : List FlowAlert :=
  match r with
  | Except.ok alerts => alerts
  | Except.error _ => []

/-- `check_flow_alerts` (`tasks.py` lines 155-177): invokes the four
heuristics in sequence; the alerts written to the store are the union (in
invocation order) of what each fault-isolated heuristic created.  The four
heuristic bodies are passed as possibly-failing computations. -/
def check_flow_alerts (bw up ps dd : Except String (List FlowAlert)) : List FlowAlert :=
  run_checked bw ++ run_checked up ++ run_checked ps ++ run_checked dd

/-- The geolocation and ASN collaborators of the enrichment stage
(`tasks.py` lines 250-270): `get_geolocation` returns a (country, city)
pair and never raises; `get_asn` returns a nullable ASN. -/
structure GeoAsn where
  geo : String → String × String
  asn : String → Option Int

/-- Python truthiness of a nullable integer field: `not flow.src_asn` is
true exactly when the field is `None` or `0`. -/
def pyFalsyAsn : Option Int → Bool
  | none => true
  | some n => n == 0

/-- The enrichment body of `process_network_flows` for one flow
(`tasks.py` lines 37-50): fill geolocation when the country is the empty
string, fill ASN when the stored value is falsy, mark processed.  Every
guard reads only fields it does not write, so the parallel record update
matches the sequential Python statements. -/
def enrich_one (env : GeoAsn) (f : NetworkFlow) : NetworkFlow :=
  { f with
    src_country := if f.src_country = "" then (env.geo f.src_ip).1 else f.src_country,
    src_city := if f.src_country = "" then (env.geo f.src_ip).2 else f.src_city,
    dst_country := if f.dst_country = "" then (env.geo f.dst_ip).1 else f.dst_country,
    dst_city := if f.dst_country = "" then (env.geo f.dst_ip).2 else f.dst_city,
    src_asn := if pyFalsyAsn f.src_asn then env.asn f.src_ip else f.src_asn,
    dst_asn := if pyFalsyAsn f.dst_asn then env.asn f.dst_ip else f.dst_asn,
    processed := true }

/-- One record's pass through `process_network_flows` (`tasks.py` lines
19-62): records with `processed=True` are not selected by the
`filter(processed=False)` queryset and are returned unchanged; a selected
record is enriched and then persisted through `NetworkFlow.save`. -/
def process_one (env : GeoAsn) (f : NetworkFlow) : NetworkFlow :=
  if f.processed then f else model_save (enrich_one env f)

/-- `process_network_flows` over the flow table.  The batch loop (slices
of 100) only bounds per-transaction work and does not change the
per-record transform, so it is not reflected in the state function. -/
def process_network_flows (env : GeoAsn) (flows : List NetworkFlow) : List NetworkFlow :=
  flows.map (process_one env)

/-- Follows the claim's words, not the source: every period truncates
`now` to its own granularity, so the 5m period truncates to a 5-minute
boundary and the 15m period to a 15-minute boundary. -/
def claim_bucket_start (period : String) (now : Int) : Int :=
  if period = "1m" then now - now % 60
  else if period = "5m" then now - now % 300
  else if period = "15m" then now - now % 900
  else if period = "1h" then now - now % 3600
  else now - now % 86400

/-- A concrete flow record used by the sample states below. -/
def sampleFlow (src dst : String) (ts : Int) (proto : Int) (bytes : Int)
    (dur : ℚ) (port : Int) : NetworkFlow :=
  { flow_id := "id-" ++ src ++ "-" ++ dst ++ "-" ++ toString ts
    timestamp := ts
    first_seen := ts
    last_seen := ts
    src_ip := src
    dst_ip := dst
    src_port := 1
    dst_port := port
    protocol := proto
    protocol_name := "TCP"
    packets := 1
    bytes := bytes
    duration := dur
    input_interface := none
    output_interface := none
    tos := 0
    tcp_flags := 0
    src_country := "US"
    src_city := ""
    dst_country := "US"
    dst_city := ""
    src_asn := some 1
    dst_asn := some 1
    flow_data := []
    processed := true }

/-- Sample state for the aggregator: one flow 60 seconds before `now = 90`,
no snapshots yet. -/
def c1state : AggState :=
  { flows := [sampleFlow "10.0.0.1" "10.0.0.2" 30 6 100 1 80], stats := [] }

/-- A flow 40 days old at `now = day 100`: past the default 30-day flow
retention. -/
def c3flowOld : NetworkFlow :=
  sampleFlow "10.0.0.1" "10.0.0.2" (60 * 86400) 6 100 1 80

/-- An alert 1 day old at `now = day 100` (well inside the 90-day alert
horizon) whose `flow` foreign key references `c3flowOld`. -/
def c3alertRecent : FlowAlert :=
  { alert_type := "unusual_protocol"
    severity := "low"
    title := "Unusual protocol detected: GRE"
    description := "sample"
    flow := some c3flowOld.flow_id
    flow_data := []
    timestamp := 99 * 86400
    acknowledged := false
    acknowledged_by := none
    acknowledged_at := none
    threshold_value := none
    current_value := some 47 }

/-- The same alert without the flow reference. -/
def c3alertNoFlow : FlowAlert :=
  { c3alertRecent with flow := none }

/-- Flows for the C4 witness: one at the window's lower bound, one at the
bucket start. -/
def c4f0 : NetworkFlow := sampleFlow "10.0.0.1" "10.0.0.2" 0 6 100 1 80

def c4f1 : NetworkFlow := sampleFlow "10.0.0.3" "10.0.0.4" 60 6 100 1 80

/-- A protocol-47 flow whose timestamp equals `now = 1000` exactly. -/
def c5flow : NetworkFlow := sampleFlow "10.0.0.1" "10.0.0.2" 1000 47 100 1 80

/-- A flow with `duration = 0` and nonzero byte/packet counts. -/
def c6flow : NetworkFlow := sampleFlow "10.0.0.1" "10.0.0.2" 0 6 5000 0 80

/-- Five flows whose per-flow bandwidths are 100, 0, 0, 0, 0 Mbps:
average 20, maximum 100. -/
def c7flowsA : List NetworkFlow :=
  [sampleFlow "10.0.0.1" "10.0.0.2" 100 6 12500000 1 80,
   sampleFlow "10.0.1.0" "10.0.0.2" 100 6 0 1 80,
   sampleFlow "10.0.1.1" "10.0.0.2" 100 6 0 1 80,
   sampleFlow "10.0.1.2" "10.0.0.2" 100 6 0 1 80,
   sampleFlow "10.0.1.3" "10.0.0.2" 100 6 0 1 80]

/-- Six flows whose per-flow bandwidths are 100.01 and five times 3.998
Mbps: average exactly 20, maximum 100.01. -/
def c7flowsB : List NetworkFlow :=
  [sampleFlow "10.0.0.1" "10.0.0.2" 100 6 12501250 1 80,
   sampleFlow "10.0.1.0" "10.0.0.2" 100 6 499750 1 80,
   sampleFlow "10.0.1.1" "10.0.0.2" 100 6 499750 1 80,
   sampleFlow "10.0.1.2" "10.0.0.2" 100 6 499750 1 80,
   sampleFlow "10.0.1.3" "10.0.0.2" 100 6 499750 1 80,
   sampleFlow "10.0.1.4" "10.0.0.2" 100 6 499750 1 80]

/-- 49 flows from 49 distinct sources to one destination. -/
def c8flows49 : List NetworkFlow :=
  (List.range 49).map (fun i => sampleFlow ("s" ++ toString i) "victim" 100 6 0 1 80)

/-- 50 flows from 50 distinct sources to one destination. -/
def c8flows50 : List NetworkFlow :=
  (List.range 50).map (fun i => sampleFlow ("s" ++ toString i) "victim" 100 6 0 1 80)

/-- Enrichment environment whose ASN collaborator answers 42 for every ip. -/
def c10env : GeoAsn := { geo := fun _ => ("", ""), asn := fun _ => some 42 }

/-- An unprocessed flow that already stores ASN 0 — present, but falsy for
Python's `not flow.src_asn` check. -/
def c10flowZ : NetworkFlow :=
  { sampleFlow "10.0.0.1" "10.0.0.2" 0 6 100 1 80 with processed := false, src_asn := some 0 }

/-- Enrichment environment for the frame witness. -/
def c10envW : GeoAsn := { geo := fun _ => ("FR", "Paris"), asn := fun _ => some 7 }

/-- An unprocessed flow with geolocation already present. -/
def c10flowW : NetworkFlow :=
  { sampleFlow "10.0.0.9" "10.0.0.8" 5 6 100 1 80 with processed := false }

end IPDR

namespace IPDR

/-- C2 counterexample: at `now = 420` (7 minutes past the epoch) the code's
`periods` table truncates the 5m and 15m periods with `TruncMinute`, giving
`bucket_start = 420`, whereas the claim's own per-period granularity
demands 300 (the 5-minute boundary) and 0 (the 15-minute boundary). -/
theorem C2_counterexample :
    periods.map (fun p => (p.1, p.2.1.apply 420))
        = [("1m", 420), ("5m", 420), ("15m", 420), ("1h", 0), ("1d", 0)]
      ∧ claim_bucket_start "5m" 420 = 300
      ∧ claim_bucket_start "15m" 420 = 0
      ∧ (420 : Int) ≠ 300 := by
  decide

/-- C2 (amended): for every `now`, the aggregator's `periods` table
truncates the 1m, 5m and 15m periods to the start of the current minute
(`TruncMinute` for all three), the 1h period to the start of the hour and
the 1d period to the start of the day. -/
theorem C2_bucket_truncation (now : Int) :
    periods.map (fun p => (p.1, p.2.1.apply now))
      = [("1m", now - now % 60), ("5m", now - now % 60), ("15m", now - now % 60),
         ("1h", now - now % 3600), ("1d", now - now % 86400)] := rfl

/-- C3: the code contradicts the claimed 90-day alert retention.  At
`now = day 100` with the default 30-day flow retention, a 1-day-old alert
referencing a 40-day-old flow is destroyed by the flow deletion's
`on_delete=CASCADE`, even though its timestamp is far inside the 90-day
horizon; the identical alert without the flow reference survives. -/
theorem C3_cascade_destroys_recent_alert :
    (100 * 86400 - 90 * 86400 : Int) ≤ c3alertRecent.timestamp
      ∧ (cleanup_old_flows (100 * 86400) 30
          { flows := [c3flowOld], stats := [], alerts := [c3alertRecent] }).alerts = []
      ∧ (cleanup_old_flows (100 * 86400) 30
          { flows := [c3flowOld], stats := [], alerts := [c3alertNoFlow] }).alerts
          = [c3alertNoFlow] := by
  decide

/-- C5 counterexample: the heuristics' queryset filter has no upper bound,
so a flow whose timestamp equals `now` is selected and produces an
`unusual_protocol` alert — the claim says a flow with timestamp at or
after `now` is considered by no heuristic. -/
theorem C5_counterexample :
    c5flow.timestamp = 1000
      ∧ c5flow ∈ unusual_recent 1000 [c5flow]
      ∧ check_unusual_protocols 1000 [c5flow] ≠ [] := by
  decide

/-- C5 (amended): all four heuristics select exactly the flows with
`timestamp ≥ now - 5 minutes`; the window has no upper bound, so flows at
or after `now` are also evaluated, while flows older than `now - 5
minutes` are evaluated by no heuristic. -/
theorem C5_trailing_window (now : Int) (flows : List NetworkFlow) :
    bandwidth_recent now flows = unusual_recent now flows
      ∧ bandwidth_recent now flows = portscan_recent now flows
      ∧ bandwidth_recent now flows = ddos_recent now flows
      ∧ ∀ f : NetworkFlow,
          f ∈ bandwidth_recent now flows ↔ f ∈ flows ∧ now - 300 ≤ f.timestamp := by
  refine ⟨rfl, rfl, rfl, fun f => ?_⟩
  simp [bandwidth_recent, List.mem_filter]

/-- C6: the derived fields are total: both are 0 at `duration = 0` (the
division branch is not taken), and for positive duration they are exactly
`bytes*8/(duration*1e6)` and `packets/duration`. -/
theorem C6_derived_fields_total (f : NetworkFlow) :
    (f.duration = 0 → bandwidth_mbps f = 0 ∧ packets_per_second f = 0)
      ∧ (0 < f.duration →
          bandwidth_mbps f = ((f.bytes : ℚ) * 8) / (f.duration * 1000000)
            ∧ packets_per_second f = (f.packets : ℚ) / f.duration) := by
  constructor
  · intro h
    simp [bandwidth_mbps, packets_per_second, h]
  · intro h
    simp [bandwidth_mbps, packets_per_second, h]

/-- Witness for C6 at a concrete flow with `duration = 0`. -/
theorem C6_witness :
    c6flow.duration = 0 ∧ bandwidth_mbps c6flow = 0 ∧ packets_per_second c6flow = 0 :=
  ⟨rfl, (C6_derived_fields_total c6flow).1 rfl⟩

/-- Every window length in the `periods` table is positive. -/
theorem periods_window_pos (p : String × TruncFn × Int) (hp : p ∈ periods) : 0 < p.2.2 := by
  simp [periods] at hp
  rcases hp with rfl | rfl | rfl | rfl | rfl <;> decide

/-- C4: the aggregator's per-period flow selection is the half-open
interval `[bucket_start - window, bucket_start)`: a flow stamped exactly
`bucket_start - window` is selected, a flow stamped exactly `bucket_start`
is not. -/
theorem C4_half_open_window (now : Int) (flows : List NetworkFlow)
    (p : String × TruncFn × Int) (hp : p ∈ periods) (f : NetworkFlow) (hf : f ∈ flows) :
    (f.timestamp = p.2.1.apply now - p.2.2 →
        f ∈ flowsInWindow flows (p.2.1.apply now - p.2.2) (p.2.1.apply now))
      ∧ (f.timestamp = p.2.1.apply now →
          f ∉ flowsInWindow flows (p.2.1.apply now - p.2.2) (p.2.1.apply now)) := by
  constructor
  · intro ht
    simp only [flowsInWindow, List.mem_filter, Bool.and_eq_true, decide_eq_true_eq]
    exact ⟨hf, le_of_eq ht.symm, by rw [ht]; exact sub_lt_self _ (periods_window_pos p hp)⟩
  · intro ht hmem
    simp only [flowsInWindow, List.mem_filter, Bool.and_eq_true, decide_eq_true_eq] at hmem
    exact absurd (ht ▸ hmem.2.2) (lt_irrefl _)

/-- Witness for C4 with the 1m period at `now = 90`: bucket start 60,
window `[0, 60)`; `c4f0` is stamped 0 and selected, `c4f1` is stamped 60
and not selected. -/
theorem C4_witness :
    c4f0 ∈ flowsInWindow [c4f0, c4f1]
        (TruncFn.apply TruncFn.minute 90 - 60) (TruncFn.apply TruncFn.minute 90)
      ∧ c4f1 ∉ flowsInWindow [c4f0, c4f1]
          (TruncFn.apply TruncFn.minute 90 - 60) (TruncFn.apply TruncFn.minute 90) :=
  ⟨(C4_half_open_window 90 [c4f0, c4f1] ("1m", TruncFn.minute, 60) (by decide)
      c4f0 (by decide)).1 (by decide),
   (C4_half_open_window 90 [c4f0, c4f1] ("1m", TruncFn.minute, 60) (by decide)
      c4f1 (by decide)).2 (by decide)⟩

/-- The per-flow bandwidths of the C7 sample windows, as the claim's
boundary instances intend them: average 20 with maximum 100, and average
20 with maximum 100.01. -/
theorem c7_bandwidths :
    c7flowsA.map bandwidth_mbps = [100, 0, 0, 0, 0]
      ∧ c7flowsB.map bandwidth_mbps
        = [10001 / 100, 1999 / 500, 1999 / 500, 1999 / 500, 1999 / 500, 1999 / 500] := by
  constructor <;>
    · simp only [c7flowsA, c7flowsB, sampleFlow, bandwidth_mbps, List.map_cons, List.map_nil]
      norm_num

/-- C7: the claim is the spec's intent but the code cannot emit.  The
`c7flowsB` window is exactly the claim's firing instance — its per-flow
bandwidths average 20 with maximum 100.01 (so both strict inequalities
hold) — yet the heuristic creates no alert and instead logs the
`FieldError` raised by aggregating over the `@property`
`bandwidth_mbps`; in fact `check_bandwidth_spikes` creates no alert on
any input whatsoever. -/
theorem C7_fielderror_never_alerts :
    c7flowsB.map bandwidth_mbps
        = [10001 / 100, 1999 / 500, 1999 / 500, 1999 / 500, 1999 / 500, 1999 / 500]
      ∧ avgQ (c7flowsB.map bandwidth_mbps) = 20
      ∧ bandwidth_recent 300 c7flowsB = c7flowsB
      ∧ (check_bandwidth_spikes 300 c7flowsB).1 = []
      ∧ (check_bandwidth_spikes 300 c7flowsB).2
          = some "FieldError: Cannot resolve keyword bandwidth_mbps into field"
      ∧ ∀ (now : Int) (flows : List NetworkFlow),
          (check_bandwidth_spikes now flows).1 = [] := by
  refine ⟨c7_bandwidths.2, ?_, by decide, by decide, by decide, ?_⟩
  · rw [c7_bandwidths.2]
    simp only [avgQ, List.sum_cons, List.sum_nil, List.length_cons, List.length_nil]
    norm_num
  · intro now flows
    by_cases he : (bandwidth_recent now flows).isEmpty <;>
      simp [check_bandwidth_spikes, bandwidth_body, he,
        aggregate_avg_bandwidth, aggregate_max_bandwidth]

/-- C9: heuristic failures are isolated.  A heuristic whose body raises
behaves exactly like one that created no alerts — replacing any one of the
four computations by an error changes nothing else — and every successful
heuristic's alerts survive into the run's output regardless of the other
three; plugging in the four real heuristic bodies (the bandwidth body
that raises `FieldError` on a non-empty window, and the three pure ones)
gives exactly the concatenation of what each fault-isolated heuristic
created. -/
theorem C9_fault_isolation (r1 r2 r3 r4 : Except String (List FlowAlert)) (e : String) :
    check_flow_alerts (Except.error e) r2 r3 r4 = check_flow_alerts (Except.ok []) r2 r3 r4
      ∧ check_flow_alerts r1 (Except.error e) r3 r4 = check_flow_alerts r1 (Except.ok []) r3 r4
      ∧ check_flow_alerts r1 r2 (Except.error e) r4 = check_flow_alerts r1 r2 (Except.ok []) r4
      ∧ check_flow_alerts r1 r2 r3 (Except.error e) = check_flow_alerts r1 r2 r3 (Except.ok [])
      ∧ (run_checked r1).Sublist (check_flow_alerts r1 r2 r3 r4)
      ∧ (run_checked r2).Sublist (check_flow_alerts r1 r2 r3 r4)
      ∧ (run_checked r3).Sublist (check_flow_alerts r1 r2 r3 r4)
      ∧ (run_checked r4).Sublist (check_flow_alerts r1 r2 r3 r4)
      ∧ ∀ (now : Int) (flows : List NetworkFlow),
          check_flow_alerts (bandwidth_body now flows)
              (Except.ok (check_unusual_protocols now flows))
              (Except.ok (check_port_scans now flows))
              (Except.ok (check_ddos_patterns now flows))
            = (check_bandwidth_spikes now flows).1 ++ check_unusual_protocols now flows
                ++ check_port_scans now flows ++ check_ddos_patterns now flows := by
  refine ⟨rfl, rfl, rfl, rfl, ?_, ?_, ?_, ?_, ?_⟩
  · exact ((List.sublist_append_left _ _).trans (List.sublist_append_left _ _)).trans
      (List.sublist_append_left _ _)
  · exact ((List.sublist_append_right _ _).trans (List.sublist_append_left _ _)).trans
      (List.sublist_append_left _ _)
  · exact (List.sublist_append_right _ _).trans (List.sublist_append_left _ _)
  · exact List.sublist_append_right _ _
  · intro now flows
    have h : run_checked (bandwidth_body now flows) = (check_bandwidth_spikes now flows).1 := by
      cases hb : bandwidth_body now flows <;> simp [check_bandwidth_spikes, run_checked, hb]
    show run_checked (bandwidth_body now flows)
        ++ run_checked (Except.ok (check_unusual_protocols now flows))
        ++ run_checked (Except.ok (check_port_scans now flows))
        ++ run_checked (Except.ok (check_ddos_patterns now flows))
      = (check_bandwidth_spikes now flows).1 ++ check_unusual_protocols now flows
          ++ check_port_scans now flows ++ check_ddos_patterns now flows
    rw [h]
    rfl

/-- C10 counterexample: the claim says ASN is written only when absent,
but the source's guard is Python truthiness (`if not flow.src_asn`), so a
flow that stores the present value `0` has its `src_asn` overwritten by
the collaborator's answer. -/
theorem C10_counterexample :
    c10flowZ.src_asn = some 0
      ∧ c10flowZ.src_asn ≠ none
      ∧ c10flowZ.processed = false
      ∧ (process_one c10env c10flowZ).src_asn = some 42
      ∧ (process_one c10env c10flowZ).src_asn ≠ c10flowZ.src_asn := by
  decide

/-- C10 (amended): enrichment mutates only the enrichment fields.  An
already-processed record is not selected and returned unchanged; a
selected record gets `processed = true`, geolocation written exactly when
the corresponding country was empty, ASN written exactly when the stored
value is null **or zero** (Python truthiness), and every other stored
field unchanged (`flow_id` unchanged for stored records, whose id is
nonempty). -/
theorem C10_enrichment_frame (env : GeoAsn) (f : NetworkFlow) (hid : f.flow_id ≠ "") :
    (f.processed = true → process_one env f = f)
      ∧ (∀ flows : List NetworkFlow,
          process_network_flows env flows = flows.map (process_one env))
      ∧ (f.processed = false →
          (process_one env f).processed = true
            ∧ (process_one env f).flow_id = f.flow_id
            ∧ (process_one env f).timestamp = f.timestamp
            ∧ (process_one env f).first_seen = f.first_seen
            ∧ (process_one env f).last_seen = f.last_seen
            ∧ (process_one env f).src_ip = f.src_ip
            ∧ (process_one env f).dst_ip = f.dst_ip
            ∧ (process_one env f).src_port = f.src_port
            ∧ (process_one env f).dst_port = f.dst_port
            ∧ (process_one env f).protocol = f.protocol
            ∧ (process_one env f).packets = f.packets
            ∧ (process_one env f).bytes = f.bytes
            ∧ (process_one env f).duration = f.duration
            ∧ (process_one env f).input_interface = f.input_interface
            ∧ (process_one env f).output_interface = f.output_interface
            ∧ (process_one env f).tos = f.tos
            ∧ (process_one env f).tcp_flags = f.tcp_flags
            ∧ (process_one env f).flow_data = f.flow_data
            ∧ (f.src_country ≠ "" →
                (process_one env f).src_country = f.src_country
                  ∧ (process_one env f).src_city = f.src_city)
            ∧ (f.src_country = "" →
                (process_one env f).src_country = (env.geo f.src_ip).1
                  ∧ (process_one env f).src_city = (env.geo f.src_ip).2)
            ∧ (f.dst_country ≠ "" →
                (process_one env f).dst_country = f.dst_country
                  ∧ (process_one env f).dst_city = f.dst_city)
            ∧ (f.dst_country = "" →
                (process_one env f).dst_country = (env.geo f.dst_ip).1
                  ∧ (process_one env f).dst_city = (env.geo f.dst_ip).2)
            ∧ (pyFalsyAsn f.src_asn = false → (process_one env f).src_asn = f.src_asn)
            ∧ (pyFalsyAsn f.src_asn = true → (process_one env f).src_asn = env.asn f.src_ip)
            ∧ (pyFalsyAsn f.dst_asn = false → (process_one env f).dst_asn = f.dst_asn)
            ∧ (pyFalsyAsn f.dst_asn = true → (process_one env f).dst_asn = env.asn f.dst_ip)) := by
  refine ⟨fun h => by simp [process_one, h], fun _ => rfl, fun hp => ?_⟩
  have hstep : process_one env f = model_save (enrich_one env f) := by
    simp [process_one, hp]
  rw [hstep]
  by_cases h1 : f.src_country = "" <;> by_cases h2 : f.dst_country = "" <;>
    by_cases h3 : pyFalsyAsn f.src_asn = true <;> by_cases h4 : pyFalsyAsn f.dst_asn = true <;>
      simp [model_save, enrich_one, h1, h2, h3, h4, hid]

/-- Witness for C10 at a concrete unprocessed flow with nonempty id,
geolocation present and a truthy stored ASN. -/
theorem C10_witness :
    (process_one c10envW c10flowW).processed = true
      ∧ (process_one c10envW c10flowW).flow_id = c10flowW.flow_id
      ∧ (process_one c10envW c10flowW).bytes = c10flowW.bytes := by
  have h := (C10_enrichment_frame c10envW c10flowW (by decide)).2.2 rfl
  exact ⟨h.1, h.2.1, h.2.2.2.2.2.2.2.2.2.2.2.1⟩

/-- C1: the claim is the spec's intent but the code cannot realize it.
At `now = 90` over `c1state` (one flow stamped 30 — inside the 1m
period's window `[0, 60)` — and an empty statistics table), the very
first period reaches `calculate_flow_statistics`, whose bandwidth
aggregate raises `FieldError`; the task re-raises, so the run aborts
with no snapshot created and later periods unattempted, and a second
invocation at the same `now` does exactly the same: neither run creates
any `StatisticsSnapshot`, and the second finds none to skip over. -/
theorem C1_fielderror_aborts_aggregation :
    flowsInWindow c1state.flows (TruncFn.apply TruncFn.minute 90 - 60)
        (TruncFn.apply TruncFn.minute 90) ≠ []
      ∧ (aggregate_flow_statistics 90 c1state).2
          = some "FieldError: Cannot resolve keyword bandwidth_mbps into field"
      ∧ (aggregate_flow_statistics 90 c1state).1 = c1state
      ∧ (aggregate_flow_statistics 90 c1state).1.stats = []
      ∧ (aggregate_flow_statistics 90 (aggregate_flow_statistics 90 c1state).1).1 = c1state
      ∧ (aggregate_flow_statistics 90 (aggregate_flow_statistics 90 c1state).1).2
          = some "FieldError: Cannot resolve keyword bandwidth_mbps into field" := by
  decide

/-- Appending to a fixed string on the left is injective. -/
theorem string_append_left_cancel {s t u : String} (h : s ++ t = s ++ u) : t = u := by
  have hd := congrArg String.data h
  simp only [String.data_append] at hd
  exact String.ext (List.append_cancel_left hd)

/-- Two `ddos_attack` titles agree exactly when their destinations do. -/
theorem ddos_title_inj {d d' : String} : ddos_title d = ddos_title d' ↔ d = d' := by
  constructor
  · exact fun h => string_append_left_cancel h
  · rintro rfl
    rfl

/-- Filtering a mapped list by a predicate that factors through the map. -/
theorem filter_of_map {α β : Type} (l : List α) (f : α → β) (p : β → Bool) (q : α → Bool)
    (hq : ∀ a, p (f a) = q a) : (l.map f).filter p = (l.filter q).map f := by
  induction l with
  | nil => rfl
  | cons a l ih =>
    simp only [List.map_cons, List.filter_cons, hq a]
    cases q a <;> simp [ih]

/-- On a duplicate-free list, filtering for one element finds it at most
once. -/
theorem nodup_filter_beq_len {l : List String} (hn : l.Nodup) (d : String) :
    (l.filter (fun x => x == d)).length = if d ∈ l then 1 else 0 := by
  induction l with
  | nil => simp
  | cons a l ih =>
    rw [List.nodup_cons] at hn
    by_cases had : a = d
    · subst had
      have hnot : a ∉ l := hn.1
      simp [List.filter_cons, ih hn.2, hnot]
    · have hne : (a == d) = false := beq_eq_false_iff_ne.mpr had
      simp [List.filter_cons, hne, ih hn.2, List.mem_cons, had, Ne.symm had]

/-- On a duplicate-free list containing the element, that filter is the
singleton. -/
theorem nodup_filter_beq_singleton {l : List String} (hn : l.Nodup) {d : String}
    (hd : d ∈ l) : l.filter (fun x => x == d) = [d] := by
  induction l with
  | nil => cases hd
  | cons a l ih =>
    rw [List.nodup_cons] at hn
    rcases List.mem_cons.mp hd with rfl | hdl
    · have hrest : l.filter (fun x => x == d) = [] := by
        rw [List.filter_eq_nil_iff]
        intro x hx
        simp only [beq_iff_eq]
        exact fun hxd => hn.1 (hxd ▸ hx)
      simp [List.filter_cons, hrest]
    · have had : (a == d) = false :=
        beq_eq_false_iff_ne.mpr (fun hc => hn.1 (hc ▸ hdl))
      simp [List.filter_cons, had, ih hn.2 hdl]

/-- The title predicate on DDoS alerts factors through the destination. -/
theorem ddos_title_pred (now : Int) (recent : List NetworkFlow) (d : String) :
    ∀ d', ((ddos_alert now recent d').title == ddos_title d) = (d' == d) := by
  intro d'
  by_cases hdd : d' = d
  · subst hdd
    simp [ddos_alert]
  · have hne : ddos_title d' ≠ ddos_title d := fun hc => hdd (ddos_title_inj.mp hc)
    simp only [ddos_alert]
    rw [beq_eq_false_iff_ne.mpr hne, beq_eq_false_iff_ne.mpr hdd]

/-- The destination groups the heuristic iterates over, duplicate-free. -/
theorem ddos_targets_nodup (now : Int) (flows : List NetworkFlow) :
    ((((ddos_recent now flows).map (fun f => f.dst_ip)).dedup).filter
      (fun d => decide (50 ≤ distinct_sources (ddos_recent now flows) d))).Nodup :=
  (List.nodup_dedup _).filter _

/-- C8: per destination `d`, the DDoS fan-in heuristic emits exactly one
`ddos_attack` alert when `d` occurs in the window with at least 50
distinct sources and none otherwise; every emitted alert has severity
high and threshold 50, and a qualifying destination's one alert is the
`ddos_alert` carrying its observed distinct-source count.  Concretely, 49
distinct sources to one destination emit nothing, 50 emit one alert with
`current_value = 50`. -/
theorem C8_ddos_fanin (now : Int) (flows : List NetworkFlow) (d : String) :
    (((check_ddos_patterns now flows).filter
          (fun a => a.title == ddos_title d)).length
        = if d ∈ (ddos_recent now flows).map (fun f => f.dst_ip)
              ∧ 50 ≤ distinct_sources (ddos_recent now flows) d
          then 1 else 0)
      ∧ (∀ a ∈ check_ddos_patterns now flows,
          a.alert_type = "ddos_attack" ∧ a.severity = "high"
            ∧ a.threshold_value = some 50)
      ∧ (d ∈ (ddos_recent now flows).map (fun f => f.dst_ip) →
          50 ≤ distinct_sources (ddos_recent now flows) d →
            (check_ddos_patterns now flows).filter (fun a => a.title == ddos_title d)
              = [ddos_alert now (ddos_recent now flows) d])
      ∧ check_ddos_patterns 300 c8flows49 = []
      ∧ (check_ddos_patterns 300 c8flows50).map
          (fun a => (a.alert_type, a.severity, a.threshold_value, a.current_value))
        = [("ddos_attack", "high", some 50, some ((50 : Nat) : ℚ))] := by
  have hrepr : check_ddos_patterns now flows
      = ((((ddos_recent now flows).map (fun f => f.dst_ip)).dedup).filter
          (fun x => decide (50 ≤ distinct_sources (ddos_recent now flows) x))).map
          (ddos_alert now (ddos_recent now flows)) := rfl
  have hfil : (check_ddos_patterns now flows).filter (fun a => a.title == ddos_title d)
      = (((((ddos_recent now flows).map (fun f => f.dst_ip)).dedup).filter
            (fun x => decide (50 ≤ distinct_sources (ddos_recent now flows) x))).filter
          (fun x => x == d)).map (ddos_alert now (ddos_recent now flows)) := by
    rw [hrepr, filter_of_map _ _ _ _ (ddos_title_pred now (ddos_recent now flows) d)]
  have hmem : d ∈ (((ddos_recent now flows).map (fun f => f.dst_ip)).dedup).filter
        (fun x => decide (50 ≤ distinct_sources (ddos_recent now flows) x))
      ↔ d ∈ (ddos_recent now flows).map (fun f => f.dst_ip)
          ∧ 50 ≤ distinct_sources (ddos_recent now flows) d := by
    rw [List.mem_filter, List.mem_dedup, decide_eq_true_eq]
  refine ⟨?_, ?_, ?_, by decide, by decide⟩
  · rw [hfil, List.length_map, nodup_filter_beq_len (ddos_targets_nodup now flows) d]
    exact if_congr hmem rfl rfl
  · intro a ha
    rw [hrepr] at ha
    rcases List.mem_map.mp ha with ⟨x, -, rfl⟩
    exact ⟨rfl, rfl, rfl⟩
  · intro hd hcnt
    rw [hfil, nodup_filter_beq_singleton (ddos_targets_nodup now flows) (hmem.mpr ⟨hd, hcnt⟩)]
    rfl

/-- Witness for C8: both hypotheses of the qualifying-destination clause
are discharged at the concrete 50-source window. -/
theorem C8_witness :
    (check_ddos_patterns 300 c8flows50).filter
        (fun a => a.title == ddos_title "victim")
      = [ddos_alert 300 (ddos_recent 300 c8flows50) "victim"] :=
  (C8_ddos_fanin 300 c8flows50 "victim").2.2.1 (by decide) (by decide)

end IPDR
